import Mathlib

/-!
Verification model of the Sora2-Grsai video-generation orchestrator
(`src/main.py`).  The orchestration core is embedded shallowly:

* `validate_url` mirrors the regex check at `main.py:93-116`;
* `download_video` mirrors `main.py:239-300` with the network response
  abstracted into a `DlResp` value;
* `poll_for_result` mirrors `main.py:312-444`, `generate_video_task`
  mirrors `main.py:446-682`; the remote service is abstracted as an
  oracle `Env` supplying one response per submit call, per poll round
  and per download;
* `rate_limit_api_call` mirrors `main.py:302-310` over rational-valued
  logical clocks; since that function takes no lock while the jobs run
  on concurrent worker threads, `raceStep`/`raceRun` additionally model
  two threads executing its read (`main.py:304-305`) and write
  (`main.py:310`) of the shared `last_api_call_time` as separate,
  freely interleavable atomic steps.

Each mutation of the shared per-job dictionary (`self.tasks[i].update`)
is a named update function on `Task`; a run threads a world `W` that
records every intermediate task state (`hist`), the outbound network
calls (`evs`) and a logical clock (`now`, bumped at each store write, so
`time.time()` values are represented by strictly increasing naturals).
Since each worker thread mutates only its own record, one job's run is
modelled independently of its siblings.
-/

namespace Sora

/-! ### URL validation (`main.py:93-116`)

The Python code matches the image URL against
`^https?://((LABEL\.)+[A-Z]{2,6}\.?|localhost|\d{1,3}(\.\d{1,3}){3})(:\d+)?(/?|[/?]\S+)$`
(case-insensitive, `LABEL = [A-Z0-9]([A-Z0-9-]{0,61}[A-Z0-9])?`).
We embed the regex as a backtracking matcher over character lists: a
matcher maps an input suffix to the list of suffixes remaining after a
match of the corresponding regex fragment.  ASCII classes stand in for
the (practically ASCII) Python classes. -/

abbrev Rem := List Char

abbrev Matcher := Rem → List Rem

def mchar (p : Char → Bool) : Matcher := fun s =>
  match s with
  | [] => []
  | c :: rest => if p c then [rest] else []

def mseq (a b : Matcher) : Matcher := fun s => (a s).flatMap b

def malt (a b : Matcher) : Matcher := fun s => a s ++ b s

def mopt (a : Matcher) : Matcher := fun s => s :: a s

/-- exactly `n` repetitions -/
def mexact (a : Matcher) : Nat → Matcher
  | 0 => fun s => [s]
  | n + 1 => mseq a (mexact a n)

/-- at most `n` repetitions -/
def mupto (a : Matcher) : Nat → Matcher
  | 0 => fun s => [s]
  | n + 1 => fun s => s :: (a s).flatMap (mupto a n)

/-- between `lo` and `hi` repetitions (regex `{lo,hi}`) -/
def mrange (a : Matcher) (lo hi : Nat) : Matcher :=
  mseq (mexact a lo) (mupto a (hi - lo))

def msomeAux (a : Matcher) : Nat → Matcher
  | 0 => fun _ => []
  | n + 1 => fun s => (a s).flatMap (fun r => r :: msomeAux a n r)

/-- one or more repetitions (regex `+`); every fragment used with it
consumes at least one character, so input length bounds the count -/
def msome (a : Matcher) : Matcher := fun s => msomeAux a (s.length + 1) s

/-- case-insensitive literal -/
def mlit : List Char → Matcher
  | [] => fun s => [s]
  | c :: cs => mseq (mchar (fun d => d.toLower = c.toLower)) (mlit cs)

/-- `^https?://` -/
def schemeM : Matcher :=
  mseq (mlit ['h', 't', 't', 'p'])
    (mseq (mopt (mchar (fun d => d.toLower = 's'))) (mlit [':', '/', '/']))

/-- `[A-Z0-9](?:[A-Z0-9-]{0,61}[A-Z0-9])?` -/
def labelM : Matcher :=
  mseq (mchar Char.isAlphanum)
    (mopt (mseq (mrange (mchar (fun c => c.isAlphanum || c == '-')) 0 61)
      (mchar Char.isAlphanum)))

/-- `(?:LABEL\.)+[A-Z]{2,6}\.?` -/
def domainM : Matcher :=
  mseq (msome (mseq labelM (mchar (· == '.'))))
    (mseq (mrange (mchar Char.isAlpha) 2 6) (mopt (mchar (· == '.'))))

/-- `\d{1,3}` -/
def d13 : Matcher := mrange (mchar Char.isDigit) 1 3

/-- `\d{1,3}\.\d{1,3}\.\d{1,3}\.\d{1,3}` -/
def ipM : Matcher :=
  mseq d13 (mseq (mchar (· == '.'))
    (mseq d13 (mseq (mchar (· == '.'))
      (mseq d13 (mseq (mchar (· == '.')) d13)))))

def hostM : Matcher :=
  malt domainM (malt (mlit ['l', 'o', 'c', 'a', 'l', 'h', 'o', 's', 't']) ipM)

/-- `(?::\d+)?` -/
def portM : Matcher := mopt (mseq (mchar (· == ':')) (msome (mchar Char.isDigit)))

/-- `(?:/?|[/?]\S+)` -/
def tailM : Matcher :=
  malt (mopt (mchar (· == '/')))
    (mseq (mchar (fun c => c == '/' || c == '?')) (msome (mchar (fun c => !c.isWhitespace))))

def urlM : Matcher := mseq schemeM (mseq hostM (mseq portM tailM))

/-- Python's `$` accepts end of input or a single trailing newline. -/
def atEnd (r : Rem) : Bool := r.isEmpty || r == ['\n']

/-- `validate_url` (`main.py:93-116`): the empty (falsy) URL is accepted —
the field is optional — otherwise the URL must match the regex. -/
def validate_url (url : String) : Bool :=
  if url = "" then true
  else (urlM url.data).any atEnd

def dropLeadingWs : List Char → List Char
  | [] => []
  | c :: rest => if c.isWhitespace then dropLeadingWs rest else c :: rest

/-- Python `str.strip()`: remove leading and trailing whitespace. -/
def pyStrip (s : String) : String :=
  ⟨(dropLeadingWs (dropLeadingWs s.data).reverse).reverse⟩

/-! ### The job record (`main.py:925-936` / `main.py:471-495`)

The per-job dictionary.  `status` is a `String` because the code stores
strings into it (including, transiently, raw remote statuses, see
`main.py:358`).  Clock readings are the logical naturals of `W.now`;
`end_time : Option Nat` models the `None`-initialised field. -/

structure Task where
  id : Nat
  prompt : String
  status : String
  progress : Int
  retry_count : Nat
  error : String
  video_url : String
  download_path : Option String
  start_time : Nat
  last_update : Nat
  end_time : Option Nat
deriving DecidableEq, Repr

/-- `max_retries = 5` (`main.py:20`) -/
def max_retries : Nat := 5

/-- `max_poll_attempts = 120` (`main.py:327`) -/
def max_poll_attempts : Nat := 120

/-! ### Oracle responses for the three remote operations -/

/-- outcome of one `requests.post(".../v1/video/sora-video")` call
(`main.py:547-552`), with the application/transport decoding already
applied: `ok` is HTTP 200 with `code == 0`, `apiErr` is HTTP 200 with a
non-zero application code carrying `msg`, `httpErr` is a non-200 reply
carrying the extracted message (`main.py:596-602`), the rest are the
caught exceptions. -/
inductive SubmitResp where
  | ok (taskId : String)
  | apiErr (msg : String)
  | httpErr (msg : String)
  | timeout
  | connError
  | exc (msg : String)
deriving DecidableEq, Repr

/-- outcome of one `requests.post(".../v1/draw/result")` call
(`main.py:339-344`): `ok` is HTTP 200 with `code == 0` and carries the
decoded `progress`/`status`/result URLs/failure texts; `apiErr` is
HTTP 200 with non-zero code; `httpErr` is any non-200 reply (the code
ignores it, `main.py:346` has no else branch). -/
inductive PollResp where
  | ok (progress : Int) (status : String) (results : List String)
      (failureReason : String) (errMsg : String)
  | apiErr (msg : String)
  | httpErr
  | timeout
  | connError
  | exc (msg : String)
deriving DecidableEq, Repr

/-- outcome of one `requests.get(video_url, stream=True)` call
(`main.py:257`): `okBytes L M` is HTTP 200 declaring `content-length`
`L` (0 when the header is absent, `main.py:263`) and delivering `M`
bytes. -/
inductive DlResp where
  | okBytes (contentLength received : Nat)
  | httpErr (code : Nat)
  | timeout
  | connError
  | ioErr (msg : String)
  | exc (msg : String)
deriving DecidableEq, Repr

/-- the remote service as an oracle: a submit response per attempt, a
poll response per attempt and round, a download response per attempt
(each attempt downloads at most once, `main.py:362-388`). -/
structure Env where
  submit : Nat → SubmitResp
  poll : Nat → Nat → PollResp
  dl : Nat → DlResp

/-! ### `download_video` (`main.py:239-300`) -/

structure DlResult where
  ok : Bool
  /-- the saved file path on success, the error text otherwise -/
  msg : String
  /-- whether a partially written file was unlinked (`main.py:276,283`) -/
  fileDeleted : Bool
deriving DecidableEq, Repr

/-- `download_video` (`main.py:239-300`): validate the URL, then — on an
HTTP 200 response — write the body and check completeness (only
`downloaded_size < total_size` with `total_size > 0`, `main.py:273`) and
non-emptiness (`main.py:282`); on either failure delete the file. -/
def download_video (videoUrl : String) (resp : DlResp) (filepath : String) : DlResult :=
  if !validate_url videoUrl then ⟨false, "视频URL格式无效", false⟩
  else
    match resp with
    | .okBytes l m =>
        if 0 < l ∧ m < l then
          ⟨false, "文件下载不完整: " ++ toString m ++ "/" ++ toString l ++ " bytes", true⟩
        else if m = 0 then ⟨false, "下载的文件为空", true⟩
        else ⟨true, filepath, false⟩
    | .httpErr c => ⟨false, "下载失败: HTTP " ++ toString c, false⟩
    | .timeout => ⟨false, "下载超时", false⟩
    | .connError => ⟨false, "下载连接错误", false⟩
    | .ioErr m => ⟨false, "文件写入错误: " ++ m, false⟩
    | .exc m => ⟨false, "下载异常: " ++ m, false⟩

/-! ### Store updates

One named function per `self.tasks[task_index].update({...})` site. -/

/-- initial record created by `run_generation` (`main.py:925-936`) -/
def initTask (idx : Nat) (prompt : String) (now : Nat) : Task :=
  { id := idx, prompt := prompt, status := "pending", progress := 0,
    retry_count := 0, error := "", video_url := "", download_path := none,
    start_time := now, last_update := now, end_time := none }

/-- re-initialisation of an existing record (`main.py:486-495`) -/
def reinitUpd (now : Nat) (t : Task) : Task :=
  { t with status := "pending", progress := 0, retry_count := 0, error := "",
           video_url := "", start_time := now, last_update := now, end_time := none }

/-- attempt start (`main.py:535-541`): `generating`, `retry_count := attempt` -/
def startAttemptUpd (attempt : Nat) (now : Nat) (t : Task) : Task :=
  { t with status := "generating", retry_count := attempt, last_update := now }

/-- poll round store write (`main.py:354-360`): `running` is renamed to
`generating`, any other remote status string is stored verbatim -/
def pollOkUpd (progress : Int) (status : String) (now : Nat) (t : Task) : Task :=
  { t with progress := progress,
           status := if status = "running" then "generating" else status,
           last_update := now }

/-- successful download (`main.py:374-379`) -/
def completedUpd (path url : String) (now : Nat) (t : Task) : Task :=
  { t with status := "completed", download_path := some path, video_url := url,
           end_time := some now }

/-- failed download (`main.py:382-386`) -/
def downloadFailedUpd (err : String) (now : Nat) (t : Task) : Task :=
  { t with status := "download_failed", error := err, end_time := some now }

/-- remote status `failed` (`main.py:393-399`) -/
def remoteFailedUpd (failureReason errMsg : String) (now : Nat) (t : Task) : Task :=
  { t with status := "failed", error := failureReason ++ ": " ++ errMsg,
           end_time := some now }

/-- poll reply with non-zero application code (`main.py:403-408`) -/
def pollApiErrUpd (msg : String) (now : Nat) (t : Task) : Task :=
  { t with error := "API错误: " ++ msg, last_update := now }

/-- transport error while polling (`main.py:412-435`) -/
def pollErrUpd (msg : String) (now : Nat) (t : Task) : Task :=
  { t with error := msg, last_update := now }

/-- poll budget exhausted (`main.py:437-444`) -/
def pollTimeoutUpd (now : Nat) (t : Task) : Task :=
  { t with status := "failed", error := "轮询超时，请手动检查任务状态",
           end_time := some now }

/-- submit failure paths (`main.py:584-590`, `596-610`, `614-641`): status
`failed` and the error text, no `end_time` -/
def submitFailUpd (err : String) (now : Nat) (t : Task) : Task :=
  { t with status := "failed", error := err, last_update := now }

/-- invalid reference-image URL (`main.py:518-524`) -/
def validationFailUpd (now : Nat) (t : Task) : Task :=
  { t with status := "failed", error := "图片URL格式无效", end_time := some now }

/-- the final `end_time` write (`main.py:673-675`) -/
def setEndUpd (now : Nat) (t : Task) : Task :=
  { t with end_time := some now }

/-- backoff reset (`main.py:655-661`): back to `pending`, `error`
cleared, `retry_count` and `progress` untouched -/
def backoffResetUpd (now : Nat) (t : Task) : Task :=
  { t with status := "pending", error := "", last_update := now }

/-- error message recorded for each failing submit outcome
(`main.py:583-643`) -/
def submitErrMsg : SubmitResp → String
  | .ok _ => ""
  | .apiErr m => "API错误: " ++ m
  | .httpErr m => m
  | .timeout => "请求超时"
  | .connError => "连接错误"
  | .exc m => "异常: " ++ m

/-! ### The world threaded through a run -/

/-- an observable outbound network call -/
inductive Ev where
  | submit (attempt : Nat)
  | poll (attempt round : Nat)
  | download (url : String)
  /-- the exponential-backoff sleep of `secs` seconds (`main.py:650-652`) -/
  | wait (secs : Nat)
deriving DecidableEq, Repr

structure W where
  task : Task
  now : Nat
  evs : List Ev
  hist : List Task
deriving DecidableEq, Repr

/-- apply a store write: the clock advances, the new state is appended
to the observable history -/
def W.upd (w : W) (f : Nat → Task → Task) : W :=
  let t := f w.now w.task
  { task := t, now := w.now + 1, evs := w.evs, hist := w.hist ++ [t] }

def W.emit (w : W) (e : Ev) : W :=
  { w with evs := w.evs ++ [e] }

/-- world at thread start: `run_generation` has created the record -/
def W0 (idx : Nat) (prompt : String) : W :=
  let t := initTask idx prompt 0
  { task := t, now := 1, evs := [], hist := [t] }

/-! ### `poll_for_result` (`main.py:312-444`) -/

/-- one round of the poll loop (`main.py:330-435`). `Sum.inl`: fall
through to `time.sleep(poll_interval)` and the next round; `Sum.inr`:
the function returned. -/
def pollStep (env : Env) (a : Nat) (running : Bool) (r : Nat) (w : W) : W ⊕ W :=
  if !running then .inr w
  else
    let w := w.emit (.poll a r)
    match env.poll a r with
    | .ok prog st results failureReason errMsg =>
        let w := w.upd (pollOkUpd prog st)
        if st = "succeeded" then
          if results ≠ [] ∧ results.headD "" ≠ "" then
            let vurl := results.headD ""
            let fname := "video_" ++ toString w.task.id ++ "_" ++ toString w.now ++ ".mp4"
            let w := w.emit (.download vurl)
            let dr := download_video vurl (env.dl a) ("download/" ++ fname)
            if dr.ok then .inr (w.upd (completedUpd dr.msg vurl))
            else .inr (w.upd (downloadFailedUpd dr.msg))
          else .inl w
        else if st = "failed" then .inr (w.upd (remoteFailedUpd failureReason errMsg))
        else .inl w
    | .apiErr m => .inl (w.upd (pollApiErrUpd m))
    | .httpErr => .inl w
    | .timeout => .inl (w.upd (pollErrUpd "轮询请求超时"))
    | .connError => .inl (w.upd (pollErrUpd "轮询连接错误"))
    | .exc m => .inl (w.upd (pollErrUpd ("轮询异常: " ++ m)))

/-- the `for attempt in range(max_poll_attempts)` loop; the `Bool` is
true when the loop returned from inside -/
def pollRounds (env : Env) (a : Nat) (running : Bool) : Nat → Nat → W → W × Bool
  | 0, _, w => (w, false)
  | fuel + 1, r, w =>
      match pollStep env a running r w with
      | .inl w => pollRounds env a running fuel (r + 1) w
      | .inr w => (w, true)

/-- `poll_for_result` (`main.py:312-444`): run up to 120 rounds; if the
loop falls off the end, mark the poll timeout (`main.py:437-444`) -/
def poll_for_result (env : Env) (a : Nat) (running : Bool) (w : W) : W :=
  match pollRounds env a running max_poll_attempts 0 w with
  | (w, true) => w
  | (w, false) => w.upd pollTimeoutUpd

/-! ### `generate_video_task` (`main.py:446-682`) -/

/-- the `for attempt in range(max_retries)` loop (`main.py:528-666`).
`none`: the loop ran off its end (the caller finalises); `some b`: the
function returned `b`.  Note the `continue` at `main.py:576-579` jumps
straight to the next attempt, skipping the backoff block. -/
def retryLoop (env : Env) (running : Bool) : Nat → Nat → W → W × Option Bool
  | 0, _, w => (w, none)
  | fuel + 1, a, w =>
      if !running then (w, some false)
      else
        let w := w.upd (startAttemptUpd a)
        let w := w.emit (.submit a)
        match env.submit a with
        | .ok _tid =>
            let w := poll_for_result env a running w
            if w.task.status = "completed" then (w, some true)
            else retryLoop env running fuel (a + 1) w
        | resp =>
            let w := w.upd (submitFailUpd (submitErrMsg resp))
            if a < max_retries - 1 then
              if w.task.status = "failed" ∧ running then
                let w := (w.emit (.wait (2 ^ a))).upd backoffResetUpd
                retryLoop env running fuel (a + 1) w
              else (w, none)
            else (w, none)

/-- post-loop epilogue (`main.py:668-682`): read the final status, set
`end_time` only if it is still unset -/
def finalize (w : W) : W :=
  if w.task.end_time = none then w.upd setEndUpd else w

def runAttempts (env : Env) (running : Bool) (w : W) : W × Bool :=
  match retryLoop env running max_retries 0 w with
  | (w, some b) => (w, b)
  | (w, none) => (finalize w, w.task.status == "completed")

/-- the `url` field of the submit payload (`main.py:513-516`): present
exactly when a non-blank reference-image URL was supplied and it passes
validation (otherwise the task fails before any request). -/
def payloadUrl (imageUrl : String) : Option String :=
  if imageUrl ≠ "" ∧ pyStrip imageUrl ≠ "" then
    if validate_url (pyStrip imageUrl) then some (pyStrip imageUrl) else none
  else none

/-- `generate_video_task` (`main.py:446-682`) for one job. -/
def generate_video_task (env : Env) (running : Bool) (prompt imageUrl : String)
    (idx : Nat) : W × Bool :=
  let w := W0 idx prompt
  if !running then (w, false)
  else
    let w := w.upd reinitUpd
    if imageUrl ≠ "" ∧ pyStrip imageUrl ≠ "" then
      if validate_url (pyStrip imageUrl) then runAttempts env running w
      else (w.upd validationFailUpd, false)
    else runAttempts env running w

/-! ### `rate_limit_api_call` (`main.py:302-310`)

Real-valued clocks become rationals.  A call reads the clock (`now`),
sleeps `1 - (now - lastCall)` seconds if that is positive, and stores a
fresh clock reading as the grant time; `eps ≥ 0` is the (nonnegative)
extra time elapsed between the end of the sleep and the second
`time.time()` read. -/
def rate_limit_api_call (lastCall now eps : ℚ) : ℚ :=
  if now - lastCall < 1 then lastCall + 1 + eps else now + eps

/-! ### The rate limiter under concurrency

`rate_limit_api_call` acquires no lock (`self.lock` is never touched in
`main.py:302-310`), yet it is called from up to `max_workers` concurrent
jobs (`main.py:544`, `ThreadPoolExecutor`).  The shared
`self.last_api_call_time` is therefore accessed by two freely
interleavable atomic steps per call: the read at `main.py:304-305`
(capturing `current_time` and the stored timestamp) and the write at
`main.py:310` (a fresh `time.time()` reading).  `raceStep` models two
threads A and B executing the function with exactly that split.  The
global clock is rational and strictly monotone: it advances by `tick`
at every atomic step, so every `time.time()` read is fresh. -/

def tick : ℚ := 1 / 100

structure RaceState where
  clock : ℚ
  /-- `self.last_api_call_time` -/
  last : ℚ
  /-- thread A's captured `(current_time, last_api_call_time)` pair
  from `main.py:304-305`, while A is between its read and its write -/
  capA : Option (ℚ × ℚ)
  /-- thread B's captured pair, likewise -/
  capB : Option (ℚ × ℚ)
  /-- the values written to `self.last_api_call_time` at `main.py:310`,
  in write order: the recorded grant times -/
  grants : List ℚ

inductive RaceStep where
  | readA | readB | writeA | writeB

/-- the value a thread writes at `main.py:310`, given the global clock
`clk` at its write step and its captured pair `(cur, lastRead)`: if the
captured gap was under a second the thread has slept until
`lastRead + 1` (`main.py:307-308`) — or until `clk`, if the clock has
already passed that — and then `time.time()` yields the next tick. -/
def writeVal (clk cur lastRead : ℚ) : ℚ :=
  (if cur - lastRead < 1 then max clk (lastRead + 1) else clk) + tick

def raceStep (s : RaceState) : RaceStep → RaceState
  | .readA => { s with capA := some (s.clock, s.last), clock := s.clock + tick }
  | .readB => { s with capB := some (s.clock, s.last), clock := s.clock + tick }
  | .writeA =>
      match s.capA with
      | none => s
      | some c =>
          let g := writeVal s.clock c.1 c.2
          { s with clock := g + tick, last := g, grants := s.grants ++ [g],
                   capA := none }
  | .writeB =>
      match s.capB with
      | none => s
      | some c =>
          let g := writeVal s.clock c.1 c.2
          { s with clock := g + tick, last := g, grants := s.grants ++ [g],
                   capB := none }

def raceRun (init : RaceState) (steps : List RaceStep) : RaceState :=
  steps.foldl raceStep init

/-- two threads call the rate limiter at clock 100, long after the last
grant (0); both reads happen before either write — an interleaving
nothing in `rate_limit_api_call` prevents, since it holds no lock. -/
def rlRace : RaceState :=
  raceRun { clock := 100, last := 0, capA := none, capB := none, grants := [] }
    [.readA, .readB, .writeA, .writeB]

/-! ### Invariant machinery

`QInv Q w`: `Q` holds for the current record and every recorded
intermediate state.  `Pres env Q` says `Q` is preserved by every store
write a run can perform (with the context each write actually has). -/

def QInv (Q : Task → Prop) (w : W) : Prop :=
  (∀ t ∈ w.hist, Q t) ∧ Q w.task

structure Pres (env : Env) (Q : Task → Prop) : Prop where
  reinit : ∀ now t, Q t → Q (reinitUpd now t)
  start : ∀ a now t, a < max_retries → Q t → Q (startAttemptUpd a now t)
  pollOk : ∀ a r progress st results fr em now t,
    env.poll a r = .ok progress st results fr em → Q t → Q (pollOkUpd progress st now t)
  completed : ∀ path u now t, Q t → Q (completedUpd path u now t)
  dlFailed : ∀ e now t, Q t → Q (downloadFailedUpd e now t)
  remoteFailed : ∀ fr em now t, Q t → Q (remoteFailedUpd fr em now t)
  pollApiErr : ∀ m now t, Q t → Q (pollApiErrUpd m now t)
  pollErr : ∀ m now t, Q t → Q (pollErrUpd m now t)
  pollTimeout : ∀ now t, Q t → Q (pollTimeoutUpd now t)
  submitFail : ∀ m now t, Q t → Q (submitFailUpd m now t)
  backoffReset : ∀ now t, Q t → Q (backoffResetUpd now t)
  validationFail : ∀ now t, Q t → Q (validationFailUpd now t)
  setEnd : ∀ now t, Q t → Q (setEndUpd now t)

/-- the remote statuses the poll contract can report
(spec §6: `running | succeeded | failed`) -/
def pollAlphabet (env : Env) : Prop :=
  ∀ a r progress st results fr em, env.poll a r = .ok progress st results fr em →
    st = "running" ∨ st = "succeeded" ∨ st = "failed"

/-- the record statuses actually observable in a run (the five enum
values of `main.py:928` plus the leaked raw remote status `succeeded`,
see `main.py:358`) -/
abbrev allowedStatus (s : String) : Prop :=
  s ∈ (["pending", "generating", "completed", "failed", "download_failed",
        "succeeded"] : List String)

/-- the status edges a run can actually take (reflexive steps are
error/timestamp-only writes) -/
abbrev allowedEdge (a b : String) : Prop :=
  a = b ∨
    (a, b) ∈ ([("pending", "generating"), ("pending", "failed"),
      ("generating", "succeeded"), ("generating", "failed"),
      ("succeeded", "generating"), ("succeeded", "failed"),
      ("succeeded", "completed"), ("succeeded", "download_failed"),
      ("failed", "pending"), ("failed", "generating"),
      ("download_failed", "generating")] : List (String × String))

/-- statuses the record can have while the poll loop is still looping -/
abbrev midStatus (s : String) : Prop := s = "generating" ∨ s = "succeeded"

/-- statuses the record can have when a retry-loop iteration starts -/
abbrev preStatus (s : String) : Prop := allowedStatus s ∧ s ≠ "completed"

/-- history well-formedness: the recorded states end at the current
record, consecutive states are joined by allowed edges, and every state
carries an allowed status -/
def histInv (w : W) : Prop :=
  w.hist.getLast? = some w.task ∧
  allowedStatus w.task.status ∧
  List.Chain' (fun x y => allowedEdge x.status y.status) w.hist ∧
  ∀ t ∈ w.hist, allowedStatus t.status

/-! ### Concrete oracles used in the counterexample scenarios -/

/-- every submit is answered with a non-zero application code
(scenario A of spec §8) -/
def apiErrEnv (m0 m1 m2 m3 m4 : String) : Env :=
  { submit := fun a => .apiErr
      (if a = 0 then m0 else if a = 1 then m1 else if a = 2 then m2
       else if a = 3 then m3 else m4),
    poll := fun _ _ => .httpErr,
    dl := fun _ => .timeout }

/-- submits succeed and every poll round reports `running`
(scenario D of spec §8) -/
def runningEnv (tid : String) (p : Int) : Env :=
  { submit := fun _ => .ok tid, poll := fun _ _ => .ok p "running" [] "" "",
    dl := fun _ => .timeout }

/-- submits succeed and the first poll round of every attempt reports a
remote `failed` -/
def remoteFailEnv : Env :=
  { submit := fun _ => .ok "t", poll := fun _ _ => .ok 10 "failed" [] "rsn" "err",
    dl := fun _ => .timeout }

/-- the download delivers more bytes (200) than the declared
content-length (100) -/
def overLongEnv : Env :=
  { submit := fun _ => .ok "t",
    poll := fun _ _ => .ok 100 "succeeded" ["http://a.bc/v"] "" "",
    dl := fun _ => .okBytes 100 200 }

/-- the download is truncated: 500 of 1000 declared bytes
(scenario C of spec §8) -/
def truncatedEnv : Env :=
  { submit := fun _ => .ok "t",
    poll := fun _ _ => .ok 100 "succeeded" ["http://a.bc/v"] "" "",
    dl := fun _ => .okBytes 1000 500 }

/-- the first poll round reports `succeeded` with no result URLs, the
second reports a remote `failed` -/
def succNoResEnv : Env :=
  { submit := fun a => if a = 0 then .ok "t" else .timeout,
    poll := fun _ r => if r = 0 then .ok 5 "succeeded" [] "" ""
                       else .ok 5 "failed" [] "rsn" "err",
    dl := fun _ => .timeout }

/-- attempt 0 polls progress 50 then a remote `failed` with progress 60;
later submits are rejected -/
def progressEnv : Env :=
  { submit := fun a => if a = 0 then .ok "t" else .apiErr "e",
    poll := fun _ r => if r = 0 then .ok 50 "running" [] "" ""
                       else .ok 60 "failed" [] "rsn" "err",
    dl := fun _ => .timeout }

/-- every submit times out; no poll ever happens -/
def quietEnv : Env :=
  { submit := fun _ => .timeout, poll := fun _ _ => .httpErr, dl := fun _ => .timeout }

/-- shape of the record states occurring in an all-API-error run -/
def apiErrRec (prompt st : String) (rc : Nat) (err : String) (lu : Nat)
    (et : Option Nat) : Task :=
  { id := 0, prompt := prompt, status := st, progress := 0, retry_count := rc,
    error := err, video_url := "", download_path := none, start_time := 1,
    last_update := lu, end_time := et }

/-! ### Preservation of per-record predicates -/

theorem QInv.upd {Q : Task → Prop} {w : W} (h : QInv Q w) {f : Nat → Task → Task}
    (hf : Q w.task → Q (f w.now w.task)) : QInv Q (w.upd f) := by
  obtain ⟨hh, ht⟩ := h
  constructor
  · intro t htm
    simp only [W.upd, List.mem_append, List.mem_singleton] at htm
    rcases htm with h1 | rfl
    · exact hh t h1
    · exact hf ht
  · exact hf ht

theorem QInv.emit {Q : Task → Prop} {w : W} (h : QInv Q w) (e : Ev) :
    QInv Q (w.emit e) := h

theorem QInv_pollStep {env : Env} {Q : Task → Prop} (hp : Pres env Q) (a r : Nat)
    (running : Bool) (w : W) (h : QInv Q w) :
    QInv Q ((pollStep env a running r w).elim id id) := by
  unfold pollStep
  cases running with
  | false => exact h
  | true =>
    simp only [Bool.not_true, Bool.false_eq_true, if_false]
    cases henv : env.poll a r with
    | ok progress st results fr em =>
        dsimp only
        have h1 : QInv Q ((w.emit (.poll a r)).upd (pollOkUpd progress st)) :=
          (h.emit _).upd (hp.pollOk a r progress st results fr em _ _ henv)
        by_cases hst : st = "succeeded"
        · subst hst
          rw [if_pos rfl]
          by_cases hres : results ≠ [] ∧ results.headD "" ≠ ""
          · rw [if_pos hres]
            split
            · simp only [Sum.elim_inr, id_eq]
              exact (h1.emit _).upd (hp.completed _ _ _ _)
            · simp only [Sum.elim_inr, id_eq]
              exact (h1.emit _).upd (hp.dlFailed _ _ _)
          · rw [if_neg hres]
            simp only [Sum.elim_inl, id_eq]
            exact h1
        · rw [if_neg hst]
          by_cases hst2 : st = "failed"
          · subst hst2
            rw [if_pos rfl]
            simp only [Sum.elim_inr, id_eq]
            exact h1.upd (hp.remoteFailed _ _ _ _)
          · rw [if_neg hst2]
            simp only [Sum.elim_inl, id_eq]
            exact h1
    | apiErr m =>
        dsimp only [Sum.elim_inl, id_eq]
        exact (h.emit _).upd (hp.pollApiErr _ _ _)
    | httpErr =>
        dsimp only [Sum.elim_inl, id_eq]
        exact h.emit _
    | timeout =>
        dsimp only [Sum.elim_inl, id_eq]
        exact (h.emit _).upd (hp.pollErr _ _ _)
    | connError =>
        dsimp only [Sum.elim_inl, id_eq]
        exact (h.emit _).upd (hp.pollErr _ _ _)
    | exc m =>
        dsimp only [Sum.elim_inl, id_eq]
        exact (h.emit _).upd (hp.pollErr _ _ _)

theorem QInv_pollRounds {env : Env} {Q : Task → Prop} (hp : Pres env Q) (a : Nat)
    (running : Bool) :
    ∀ fuel r w, QInv Q w → QInv Q (pollRounds env a running fuel r w).1 := by
  intro fuel
  induction fuel with
  | zero => intro r w h; exact h
  | succ n ih =>
    intro r w h
    have hstep := QInv_pollStep hp a r running w h
    unfold pollRounds
    cases hps : pollStep env a running r w with
    | inl w' =>
        rw [hps] at hstep
        exact ih (r + 1) w' hstep
    | inr w' =>
        rw [hps] at hstep
        exact hstep

theorem QInv_poll_for_result {env : Env} {Q : Task → Prop} (hp : Pres env Q)
    (a : Nat) (running : Bool) (w : W) (h : QInv Q w) :
    QInv Q (poll_for_result env a running w) := by
  have h1 := QInv_pollRounds hp a running max_poll_attempts 0 w h
  unfold poll_for_result
  cases hpr : pollRounds env a running max_poll_attempts 0 w with
  | mk w' b =>
    rw [hpr] at h1
    cases b
    · exact h1.upd (hp.pollTimeout _ _)
    · exact h1

theorem QInv_retryLoop {env : Env} {Q : Task → Prop} (hp : Pres env Q) (running : Bool) :
    ∀ fuel a w, a + fuel ≤ max_retries → QInv Q w →
      QInv Q (retryLoop env running fuel a w).1 := by
  intro fuel
  induction fuel with
  | zero => intro a w _ h; exact h
  | succ n ih =>
    intro a w hle h
    have ha : a < max_retries := by omega
    unfold retryLoop
    cases running with
    | false => exact h
    | true =>
      simp only [Bool.not_true, Bool.false_eq_true, if_false]
      have h1 : QInv Q (((w.upd (startAttemptUpd a)).emit (.submit a))) :=
        (h.upd (hp.start a _ _ ha)).emit _
      cases hs : env.submit a with
      | ok tid =>
          have h2 := QInv_poll_for_result hp a true _ h1
          by_cases hc : (poll_for_result env a true
              ((w.upd (startAttemptUpd a)).emit (.submit a))).task.status = "completed"
          · rw [if_pos hc]
            exact h2
          · rw [if_neg hc]
            exact ih (a + 1) _ (by omega) h2
      | apiErr m =>
          dsimp only
          have h2 : QInv Q (((w.upd (startAttemptUpd a)).emit (.submit a)).upd
              (submitFailUpd (submitErrMsg (.apiErr m)))) := h1.upd (hp.submitFail _ _ _)
          split
          · split
            · exact ih (a + 1) _ (by omega) ((h2.emit _).upd (hp.backoffReset _ _))
            · exact h2
          · exact h2
      | httpErr m =>
          dsimp only
          have h2 : QInv Q (((w.upd (startAttemptUpd a)).emit (.submit a)).upd
              (submitFailUpd (submitErrMsg (.httpErr m)))) := h1.upd (hp.submitFail _ _ _)
          split
          · split
            · exact ih (a + 1) _ (by omega) ((h2.emit _).upd (hp.backoffReset _ _))
            · exact h2
          · exact h2
      | timeout =>
          dsimp only
          have h2 : QInv Q (((w.upd (startAttemptUpd a)).emit (.submit a)).upd
              (submitFailUpd (submitErrMsg .timeout))) := h1.upd (hp.submitFail _ _ _)
          split
          · split
            · exact ih (a + 1) _ (by omega) ((h2.emit _).upd (hp.backoffReset _ _))
            · exact h2
          · exact h2
      | connError =>
          dsimp only
          have h2 : QInv Q (((w.upd (startAttemptUpd a)).emit (.submit a)).upd
              (submitFailUpd (submitErrMsg .connError))) := h1.upd (hp.submitFail _ _ _)
          split
          · split
            · exact ih (a + 1) _ (by omega) ((h2.emit _).upd (hp.backoffReset _ _))
            · exact h2
          · exact h2
      | exc m =>
          dsimp only
          have h2 : QInv Q (((w.upd (startAttemptUpd a)).emit (.submit a)).upd
              (submitFailUpd (submitErrMsg (.exc m)))) := h1.upd (hp.submitFail _ _ _)
          split
          · split
            · exact ih (a + 1) _ (by omega) ((h2.emit _).upd (hp.backoffReset _ _))
            · exact h2
          · exact h2

theorem QInv_runAttempts {env : Env} {Q : Task → Prop} (hp : Pres env Q)
    (running : Bool) (w : W) (h : QInv Q w) :
    QInv Q (runAttempts env running w).1 := by
  have h1 := QInv_retryLoop hp running max_retries 0 w (by omega) h
  unfold runAttempts
  cases hrl : retryLoop env running max_retries 0 w with
  | mk w' ob =>
    rw [hrl] at h1
    cases ob with
    | none =>
        dsimp only
        unfold finalize
        by_cases he : w'.task.end_time = none
        · rw [if_pos he]
          exact h1.upd (hp.setEnd _ _)
        · rw [if_neg he]
          exact h1
    | some b => exact h1

theorem QInv_W0 {Q : Task → Prop} (idx : Nat) (prompt : String)
    (hinit : Q (initTask idx prompt 0)) : QInv Q (W0 idx prompt) := by
  constructor
  · intro t htm
    simp only [W0, List.mem_singleton] at htm
    rw [htm]
    exact hinit
  · exact hinit

theorem QInv_generate {env : Env} {Q : Task → Prop} (hp : Pres env Q) (running : Bool)
    (prompt imageUrl : String) (idx : Nat) (hinit : Q (initTask idx prompt 0)) :
    QInv Q (generate_video_task env running prompt imageUrl idx).1 := by
  have h0 := QInv_W0 idx prompt hinit
  unfold generate_video_task
  cases running with
  | false => exact h0
  | true =>
    simp only [Bool.not_true, Bool.false_eq_true, if_false]
    have h1 : QInv Q ((W0 idx prompt).upd reinitUpd) := h0.upd (hp.reinit _ _)
    split
    · split
      · exact QInv_runAttempts hp true _ h1
      · exact h1.upd (hp.validationFail _ _)
    · exact QInv_runAttempts hp true _ h1

/-! ### Status-transition invariant (the edge discipline of the record) -/

theorem histInv.pushUpd {w : W} (h : histInv w) {f : Nat → Task → Task}
    (he : allowedEdge w.task.status (f w.now w.task).status)
    (hs : allowedStatus (f w.now w.task).status) : histInv (w.upd f) := by
  obtain ⟨hl, _hcur, hc, ha⟩ := h
  refine ⟨?_, hs, ?_, ?_⟩
  · simp only [W.upd, List.getLast?_concat]
  · simp only [W.upd]
    rw [List.chain'_append]
    refine ⟨hc, List.chain'_singleton _, ?_⟩
    intro x hx y hy
    simp only [List.head?_cons, Option.mem_def, Option.some.injEq] at hy
    rw [hl] at hx
    simp only [Option.mem_def, Option.some.injEq] at hx
    rw [← hx, ← hy]
    exact he
  · intro t htm
    simp only [W.upd, List.mem_append, List.mem_singleton] at htm
    rcases htm with h1 | rfl
    · exact ha t h1
    · exact hs

theorem histInv.pushEmit {w : W} (h : histInv w) (e : Ev) : histInv (w.emit e) := h

theorem histInv_W0 (idx : Nat) (prompt : String) : histInv (W0 idx prompt) := by
  refine ⟨rfl, ?_, List.chain'_singleton _, ?_⟩
  · show allowedStatus "pending"
    decide
  · intro t htm
    simp only [W0, List.mem_singleton] at htm
    rw [htm]
    show allowedStatus "pending"
    decide

theorem midStatus.allowed {s : String} (h : midStatus s) : allowedStatus s := by
  rcases h with h | h <;> rw [h] <;> decide

theorem histInv_pollStep {env : Env} (halpha : pollAlphabet env) (a r : Nat)
    (running : Bool) {w w' : W} (h : histInv w) (hst : midStatus w.task.status) :
    (pollStep env a running r w = .inl w' → histInv w' ∧ midStatus w'.task.status) ∧
    (pollStep env a running r w = .inr w' →
      histInv w' ∧ w'.task.status ≠ "pending") := by
  unfold pollStep
  cases running with
  | false =>
      constructor
      · intro heq
        simp at heq
      · intro heq
        simp only [Bool.not_false, if_true, Sum.inr.injEq] at heq
        subst heq
        refine ⟨h, ?_⟩
        rcases hst with h1 | h1 <;> rw [h1] <;> decide
  | true =>
      simp only [Bool.not_true, Bool.false_eq_true, if_false]
      cases henv : env.poll a r with
      | ok progress st results fr em =>
          dsimp only
          rcases halpha a r progress st results fr em henv with h1 | h1 | h1 <;> subst h1
          · -- remote "running": stored as "generating", loop continues
            rw [if_neg (by decide), if_neg (by decide)]
            have hinv : histInv ((w.emit (.poll a r)).upd (pollOkUpd progress "running")) := by
              refine (h.pushEmit _).pushUpd ?_ (by show allowedStatus "generating"; decide)
              show allowedEdge w.task.status "generating"
              rcases hst with h2 | h2 <;> rw [h2] <;> decide
            constructor
            · intro heq
              cases heq
              exact ⟨hinv, Or.inl rfl⟩
            · intro heq
              cases heq
          · -- remote "succeeded"
            rw [if_pos rfl]
            have hinv : histInv ((w.emit (.poll a r)).upd (pollOkUpd progress "succeeded")) := by
              refine (h.pushEmit _).pushUpd ?_ (by show allowedStatus "succeeded"; decide)
              show allowedEdge w.task.status "succeeded"
              rcases hst with h2 | h2 <;> rw [h2] <;> decide
            by_cases hres : results ≠ [] ∧ results.headD "" ≠ ""
            · rw [if_pos hres]
              split
              · constructor
                · intro heq
                  cases heq
                · intro heq
                  cases heq
                  refine ⟨(hinv.pushEmit _).pushUpd ?_ ?_, by show ("completed" : String) ≠ "pending"; decide⟩
                  · show allowedEdge "succeeded" "completed"
                    decide
                  · show allowedStatus "completed"
                    decide
              · constructor
                · intro heq
                  cases heq
                · intro heq
                  cases heq
                  refine ⟨(hinv.pushEmit _).pushUpd ?_ ?_, by show ("download_failed" : String) ≠ "pending"; decide⟩
                  · show allowedEdge "succeeded" "download_failed"
                    decide
                  · show allowedStatus "download_failed"
                    decide
            · rw [if_neg hres]
              constructor
              · intro heq
                cases heq
                exact ⟨hinv, Or.inr rfl⟩
              · intro heq
                cases heq
          · -- remote "failed"
            rw [if_neg (by decide), if_pos rfl]
            have hinv : histInv ((w.emit (.poll a r)).upd (pollOkUpd progress "failed")) := by
              refine (h.pushEmit _).pushUpd ?_ (by show allowedStatus "failed"; decide)
              show allowedEdge w.task.status "failed"
              rcases hst with h2 | h2 <;> rw [h2] <;> decide
            constructor
            · intro heq
              cases heq
            · intro heq
              cases heq
              refine ⟨hinv.pushUpd ?_ ?_, by show ("failed" : String) ≠ "pending"; decide⟩
              · show allowedEdge "failed" "failed"
                decide
              · show allowedStatus "failed"
                decide
      | apiErr m =>
          dsimp only
          constructor
          · intro heq
            cases heq
            refine ⟨(h.pushEmit _).pushUpd (Or.inl rfl) ?_, hst⟩
            exact hst.allowed
          · intro heq
            cases heq
      | httpErr =>
          dsimp only
          constructor
          · intro heq
            cases heq
            exact ⟨h.pushEmit _, hst⟩
          · intro heq
            cases heq
      | timeout =>
          dsimp only
          constructor
          · intro heq
            cases heq
            exact ⟨(h.pushEmit _).pushUpd (Or.inl rfl) hst.allowed, hst⟩
          · intro heq
            cases heq
      | connError =>
          dsimp only
          constructor
          · intro heq
            cases heq
            exact ⟨(h.pushEmit _).pushUpd (Or.inl rfl) hst.allowed, hst⟩
          · intro heq
            cases heq
      | exc m =>
          dsimp only
          constructor
          · intro heq
            cases heq
            exact ⟨(h.pushEmit _).pushUpd (Or.inl rfl) hst.allowed, hst⟩
          · intro heq
            cases heq

theorem histInv_pollRounds {env : Env} (halpha : pollAlphabet env) (a : Nat)
    (running : Bool) :
    ∀ fuel r w, histInv w → midStatus w.task.status →
      histInv (pollRounds env a running fuel r w).1 ∧
      ((pollRounds env a running fuel r w).2 = false →
        midStatus (pollRounds env a running fuel r w).1.task.status) ∧
      ((pollRounds env a running fuel r w).2 = true →
        (pollRounds env a running fuel r w).1.task.status ≠ "pending") := by
  intro fuel
  induction fuel with
  | zero =>
      intro r w h hst
      exact ⟨h, fun _ => hst, fun hb => Bool.noConfusion hb⟩
  | succ n ih =>
      intro r w h hst
      unfold pollRounds
      cases hps : pollStep env a running r w with
      | inl w1 =>
          dsimp only
          exact ih (r + 1) w1 ((histInv_pollStep halpha a r running h hst).1 hps).1
            ((histInv_pollStep halpha a r running h hst).1 hps).2
      | inr w1 =>
          dsimp only
          have h2 := (histInv_pollStep halpha a r running h hst).2 hps
          exact ⟨h2.1, fun hb => Bool.noConfusion hb, fun _ => h2.2⟩

theorem histInv_poll_for_result {env : Env} (halpha : pollAlphabet env) (a : Nat)
    (running : Bool) (w : W) (h : histInv w) (hst : midStatus w.task.status) :
    histInv (poll_for_result env a running w) ∧
    (poll_for_result env a running w).task.status ≠ "pending" := by
  have h1 := histInv_pollRounds halpha a running max_poll_attempts 0 w h hst
  unfold poll_for_result
  cases hpr : pollRounds env a running max_poll_attempts 0 w with
  | mk w' b =>
      rw [hpr] at h1
      cases b with
      | false =>
          dsimp only
          have hmid := h1.2.1 rfl
          refine ⟨h1.1.pushUpd ?_ ?_, by show ("failed" : String) ≠ "pending"; decide⟩
          · show allowedEdge w'.task.status "failed"
            rcases hmid with h2 | h2 <;> rw [h2] <;> decide
          · show allowedStatus "failed"
            decide
      | true => exact ⟨h1.1, h1.2.2 rfl⟩

theorem histInv_retryLoop {env : Env} (halpha : pollAlphabet env) (running : Bool) :
    ∀ fuel a w, histInv w → preStatus w.task.status →
      histInv (retryLoop env running fuel a w).1 := by
  intro fuel
  induction fuel with
  | zero => intro a w h _; exact h
  | succ n ih =>
    intro a w h hpre
    unfold retryLoop
    cases running with
    | false => exact h
    | true =>
      simp only [Bool.not_true, Bool.false_eq_true, if_false]
      have hedge : allowedEdge w.task.status "generating" := by
        obtain ⟨hall, hne⟩ := hpre
        simp only [allowedStatus, List.mem_cons, List.not_mem_nil, or_false] at hall
        rcases hall with h1 | h1 | h1 | h1 | h1 | h1
        · rw [h1]; decide
        · rw [h1]; decide
        · exact absurd h1 hne
        · rw [h1]; decide
        · rw [h1]; decide
        · rw [h1]; decide
      have h1 : histInv ((w.upd (startAttemptUpd a)).emit (.submit a)) :=
        (h.pushUpd hedge (by show allowedStatus "generating"; decide)).pushEmit _
      cases hs : env.submit a with
      | ok tid =>
          dsimp only
          have h2 := histInv_poll_for_result halpha a true _ h1 (Or.inl rfl)
          by_cases hc : (poll_for_result env a true
              ((w.upd (startAttemptUpd a)).emit (.submit a))).task.status = "completed"
          · rw [if_pos hc]
            exact h2.1
          · rw [if_neg hc]
            exact ih (a + 1) _ h2.1 ⟨h2.1.2.1, hc⟩
      | apiErr m =>
          dsimp only
          have h2 : histInv (((w.upd (startAttemptUpd a)).emit (.submit a)).upd
              (submitFailUpd (submitErrMsg (.apiErr m)))) :=
            h1.pushUpd (by show allowedEdge "generating" "failed"; decide)
              (by show allowedStatus "failed"; decide)
          split
          · split
            · refine ih (a + 1) _ ((h2.pushEmit _).pushUpd ?_ ?_) ?_
              · show allowedEdge "failed" "pending"
                decide
              · show allowedStatus "pending"
                decide
              · show preStatus "pending"
                decide
            · exact h2
          · exact h2
      | httpErr m =>
          dsimp only
          have h2 : histInv (((w.upd (startAttemptUpd a)).emit (.submit a)).upd
              (submitFailUpd (submitErrMsg (.httpErr m)))) :=
            h1.pushUpd (by show allowedEdge "generating" "failed"; decide)
              (by show allowedStatus "failed"; decide)
          split
          · split
            · refine ih (a + 1) _ ((h2.pushEmit _).pushUpd ?_ ?_) ?_
              · show allowedEdge "failed" "pending"
                decide
              · show allowedStatus "pending"
                decide
              · show preStatus "pending"
                decide
            · exact h2
          · exact h2
      | timeout =>
          dsimp only
          have h2 : histInv (((w.upd (startAttemptUpd a)).emit (.submit a)).upd
              (submitFailUpd (submitErrMsg .timeout))) :=
            h1.pushUpd (by show allowedEdge "generating" "failed"; decide)
              (by show allowedStatus "failed"; decide)
          split
          · split
            · refine ih (a + 1) _ ((h2.pushEmit _).pushUpd ?_ ?_) ?_
              · show allowedEdge "failed" "pending"
                decide
              · show allowedStatus "pending"
                decide
              · show preStatus "pending"
                decide
            · exact h2
          · exact h2
      | connError =>
          dsimp only
          have h2 : histInv (((w.upd (startAttemptUpd a)).emit (.submit a)).upd
              (submitFailUpd (submitErrMsg .connError))) :=
            h1.pushUpd (by show allowedEdge "generating" "failed"; decide)
              (by show allowedStatus "failed"; decide)
          split
          · split
            · refine ih (a + 1) _ ((h2.pushEmit _).pushUpd ?_ ?_) ?_
              · show allowedEdge "failed" "pending"
                decide
              · show allowedStatus "pending"
                decide
              · show preStatus "pending"
                decide
            · exact h2
          · exact h2
      | exc m =>
          dsimp only
          have h2 : histInv (((w.upd (startAttemptUpd a)).emit (.submit a)).upd
              (submitFailUpd (submitErrMsg (.exc m)))) :=
            h1.pushUpd (by show allowedEdge "generating" "failed"; decide)
              (by show allowedStatus "failed"; decide)
          split
          · split
            · refine ih (a + 1) _ ((h2.pushEmit _).pushUpd ?_ ?_) ?_
              · show allowedEdge "failed" "pending"
                decide
              · show allowedStatus "pending"
                decide
              · show preStatus "pending"
                decide
            · exact h2
          · exact h2

theorem histInv_runAttempts {env : Env} (halpha : pollAlphabet env) (running : Bool)
    (w : W) (h : histInv w) (hpre : preStatus w.task.status) :
    histInv (runAttempts env running w).1 := by
  have h1 := histInv_retryLoop halpha running max_retries 0 w h hpre
  unfold runAttempts
  cases hrl : retryLoop env running max_retries 0 w with
  | mk w' ob =>
      rw [hrl] at h1
      cases ob with
      | none =>
          dsimp only
          unfold finalize
          by_cases he : w'.task.end_time = none
          · rw [if_pos he]
            exact h1.pushUpd (Or.inl rfl) h1.2.1
          · rw [if_neg he]
            exact h1
      | some b => exact h1

theorem histInv_generate {env : Env} (halpha : pollAlphabet env) (running : Bool)
    (prompt imageUrl : String) (idx : Nat) :
    histInv (generate_video_task env running prompt imageUrl idx).1 := by
  have h0 := histInv_W0 idx prompt
  unfold generate_video_task
  cases running with
  | false => exact h0
  | true =>
    simp only [Bool.not_true, Bool.false_eq_true, if_false]
    have h1 : histInv ((W0 idx prompt).upd reinitUpd) :=
      h0.pushUpd (Or.inl rfl) (by show allowedStatus "pending"; decide)
    split
    · split
      · exact histInv_runAttempts halpha true _ h1 (by show preStatus "pending"; decide)
      · exact h1.pushUpd (by show allowedEdge "pending" "failed"; decide)
          (by show allowedStatus "failed"; decide)
    · exact histInv_runAttempts halpha true _ h1 (by show preStatus "pending"; decide)

/-! ### Events only accumulate -/

theorem evs_pollStep (env : Env) (a r : Nat) (running : Bool) (w : W) :
    ∃ l, ((pollStep env a running r w).elim id id).evs = w.evs ++ l := by
  unfold pollStep
  cases running with
  | false => exact ⟨[], (List.append_nil w.evs).symm⟩
  | true =>
    simp only [Bool.not_true, Bool.false_eq_true, if_false]
    cases env.poll a r with
    | ok progress st results fr em =>
        dsimp only
        by_cases hst : st = "succeeded"
        · subst hst
          rw [if_pos rfl]
          by_cases hres : results ≠ [] ∧ results.headD "" ≠ ""
          · rw [if_pos hres]
            split
            · exact ⟨[.poll a r, .download (results.headD "")],
                by simp [W.emit, W.upd]⟩
            · exact ⟨[.poll a r, .download (results.headD "")],
                by simp [W.emit, W.upd]⟩
          · rw [if_neg hres]
            exact ⟨[.poll a r], by simp [W.emit, W.upd]⟩
        · rw [if_neg hst]
          by_cases hst2 : st = "failed"
          · subst hst2
            rw [if_pos rfl]
            exact ⟨[.poll a r], by simp [W.emit, W.upd]⟩
          · rw [if_neg hst2]
            exact ⟨[.poll a r], by simp [W.emit, W.upd]⟩
    | apiErr m => exact ⟨[.poll a r], by simp [W.emit, W.upd]⟩
    | httpErr => exact ⟨[.poll a r], by simp [W.emit, W.upd]⟩
    | timeout => exact ⟨[.poll a r], by simp [W.emit, W.upd]⟩
    | connError => exact ⟨[.poll a r], by simp [W.emit, W.upd]⟩
    | exc m => exact ⟨[.poll a r], by simp [W.emit, W.upd]⟩

theorem evs_pollRounds (env : Env) (a : Nat) (running : Bool) :
    ∀ fuel r w, ∃ l, (pollRounds env a running fuel r w).1.evs = w.evs ++ l := by
  intro fuel
  induction fuel with
  | zero => intro r w; exact ⟨[], (List.append_nil w.evs).symm⟩
  | succ n ih =>
      intro r w
      obtain ⟨l1, h1⟩ := evs_pollStep env a r running w
      unfold pollRounds
      cases hps : pollStep env a running r w with
      | inl w1 =>
          rw [hps] at h1
          dsimp only [Sum.elim_inl, id_eq] at h1
          dsimp only
          obtain ⟨l2, h2⟩ := ih (r + 1) w1
          exact ⟨l1 ++ l2, by rw [h2, h1, List.append_assoc]⟩
      | inr w1 =>
          rw [hps] at h1
          dsimp only [Sum.elim_inr, id_eq] at h1
          exact ⟨l1, h1⟩

theorem evs_poll_for_result (env : Env) (a : Nat) (running : Bool) (w : W) :
    ∃ l, (poll_for_result env a running w).evs = w.evs ++ l := by
  obtain ⟨l, hl⟩ := evs_pollRounds env a running max_poll_attempts 0 w
  unfold poll_for_result
  cases hpr : pollRounds env a running max_poll_attempts 0 w with
  | mk w' b =>
      rw [hpr] at hl
      cases b
      · exact ⟨l, hl⟩
      · exact ⟨l, hl⟩

theorem evs_retryLoop (env : Env) (running : Bool) :
    ∀ fuel a w, ∃ l, (retryLoop env running fuel a w).1.evs = w.evs ++ l := by
  intro fuel
  induction fuel with
  | zero => intro a w; exact ⟨[], (List.append_nil w.evs).symm⟩
  | succ n ih =>
      intro a w
      unfold retryLoop
      cases running with
      | false => exact ⟨[], (List.append_nil w.evs).symm⟩
      | true =>
        simp only [Bool.not_true, Bool.false_eq_true, if_false]
        cases hs : env.submit a with
        | ok tid =>
            dsimp only
            obtain ⟨l2, h2⟩ :=
              evs_poll_for_result env a true ((w.upd (startAttemptUpd a)).emit (.submit a))
            by_cases hc : (poll_for_result env a true
                ((w.upd (startAttemptUpd a)).emit (.submit a))).task.status = "completed"
            · rw [if_pos hc]
              exact ⟨.submit a :: l2, by rw [h2]; simp [W.emit, W.upd]⟩
            · rw [if_neg hc]
              obtain ⟨l3, h3⟩ := ih (a + 1) _
              exact ⟨.submit a :: (l2 ++ l3), by rw [h3, h2]; simp [W.emit, W.upd]⟩
        | apiErr m =>
            dsimp only
            split
            · split
              · obtain ⟨l3, h3⟩ := ih (a + 1) _
                exact ⟨.submit a :: (.wait (2 ^ a) :: l3), by rw [h3]; simp [W.emit, W.upd]⟩
              · exact ⟨[.submit a], by simp [W.emit, W.upd]⟩
            · exact ⟨[.submit a], by simp [W.emit, W.upd]⟩
        | httpErr m =>
            dsimp only
            split
            · split
              · obtain ⟨l3, h3⟩ := ih (a + 1) _
                exact ⟨.submit a :: (.wait (2 ^ a) :: l3), by rw [h3]; simp [W.emit, W.upd]⟩
              · exact ⟨[.submit a], by simp [W.emit, W.upd]⟩
            · exact ⟨[.submit a], by simp [W.emit, W.upd]⟩
        | timeout =>
            dsimp only
            split
            · split
              · obtain ⟨l3, h3⟩ := ih (a + 1) _
                exact ⟨.submit a :: (.wait (2 ^ a) :: l3), by rw [h3]; simp [W.emit, W.upd]⟩
              · exact ⟨[.submit a], by simp [W.emit, W.upd]⟩
            · exact ⟨[.submit a], by simp [W.emit, W.upd]⟩
        | connError =>
            dsimp only
            split
            · split
              · obtain ⟨l3, h3⟩ := ih (a + 1) _
                exact ⟨.submit a :: (.wait (2 ^ a) :: l3), by rw [h3]; simp [W.emit, W.upd]⟩
              · exact ⟨[.submit a], by simp [W.emit, W.upd]⟩
            · exact ⟨[.submit a], by simp [W.emit, W.upd]⟩
        | exc m =>
            dsimp only
            split
            · split
              · obtain ⟨l3, h3⟩ := ih (a + 1) _
                exact ⟨.submit a :: (.wait (2 ^ a) :: l3), by rw [h3]; simp [W.emit, W.upd]⟩
              · exact ⟨[.submit a], by simp [W.emit, W.upd]⟩
            · exact ⟨[.submit a], by simp [W.emit, W.upd]⟩

/-- the first outbound call of the retry loop is the submit of attempt 0 -/
theorem evs_retryLoop_cons (env : Env) (fuel a : Nat) (w : W) :
    ∃ l, (retryLoop env true (fuel + 1) a w).1.evs = w.evs ++ (Ev.submit a :: l) := by
  unfold retryLoop
  simp only [Bool.not_true, Bool.false_eq_true, if_false]
  cases hs : env.submit a with
  | ok tid =>
      dsimp only
      obtain ⟨l2, h2⟩ :=
        evs_poll_for_result env a true ((w.upd (startAttemptUpd a)).emit (.submit a))
      by_cases hc : (poll_for_result env a true
          ((w.upd (startAttemptUpd a)).emit (.submit a))).task.status = "completed"
      · rw [if_pos hc]
        exact ⟨l2, by rw [h2]; simp [W.emit, W.upd]⟩
      · rw [if_neg hc]
        obtain ⟨l3, h3⟩ := evs_retryLoop env true fuel (a + 1) _
        exact ⟨l2 ++ l3, by rw [h3, h2]; simp [W.emit, W.upd]⟩
  | apiErr m =>
      dsimp only
      split
      · split
        · obtain ⟨l3, h3⟩ := evs_retryLoop env true fuel (a + 1) _
          exact ⟨.wait (2 ^ a) :: l3, by rw [h3]; simp [W.emit, W.upd]⟩
        · exact ⟨[], by simp [W.emit, W.upd]⟩
      · exact ⟨[], by simp [W.emit, W.upd]⟩
  | httpErr m =>
      dsimp only
      split
      · split
        · obtain ⟨l3, h3⟩ := evs_retryLoop env true fuel (a + 1) _
          exact ⟨.wait (2 ^ a) :: l3, by rw [h3]; simp [W.emit, W.upd]⟩
        · exact ⟨[], by simp [W.emit, W.upd]⟩
      · exact ⟨[], by simp [W.emit, W.upd]⟩
  | timeout =>
      dsimp only
      split
      · split
        · obtain ⟨l3, h3⟩ := evs_retryLoop env true fuel (a + 1) _
          exact ⟨.wait (2 ^ a) :: l3, by rw [h3]; simp [W.emit, W.upd]⟩
        · exact ⟨[], by simp [W.emit, W.upd]⟩
      · exact ⟨[], by simp [W.emit, W.upd]⟩
  | connError =>
      dsimp only
      split
      · split
        · obtain ⟨l3, h3⟩ := evs_retryLoop env true fuel (a + 1) _
          exact ⟨.wait (2 ^ a) :: l3, by rw [h3]; simp [W.emit, W.upd]⟩
        · exact ⟨[], by simp [W.emit, W.upd]⟩
      · exact ⟨[], by simp [W.emit, W.upd]⟩
  | exc m =>
      dsimp only
      split
      · split
        · obtain ⟨l3, h3⟩ := evs_retryLoop env true fuel (a + 1) _
          exact ⟨.wait (2 ^ a) :: l3, by rw [h3]; simp [W.emit, W.upd]⟩
        · exact ⟨[], by simp [W.emit, W.upd]⟩
      · exact ⟨[], by simp [W.emit, W.upd]⟩

theorem finalize_evs (w : W) : (finalize w).evs = w.evs := by
  unfold finalize
  split
  · rfl
  · rfl

theorem runAttempts_head (env : Env) (w : W) (hw : w.evs = []) :
    (runAttempts env true w).1.evs.head? = some (.submit 0) := by
  obtain ⟨l, hl⟩ := evs_retryLoop_cons env 4 0 w
  have hl' : (retryLoop env true max_retries 0 w).1.evs = w.evs ++ (Ev.submit 0 :: l) := hl
  unfold runAttempts
  cases hrl : retryLoop env true max_retries 0 w with
  | mk w' ob =>
      rw [hrl] at hl'
      cases ob with
      | none =>
          dsimp only
          rw [finalize_evs, hl', hw]
          rfl
      | some b =>
          dsimp only
          rw [hl', hw]
          rfl

/-- when URL validation passes (in particular for a blank URL), the
very first observable network call of a job run is the attempt-0 submit -/
theorem generate_first_event (env : Env) (prompt imageUrl : String) (idx : Nat)
    (hv : validate_url (pyStrip imageUrl) = true) :
    (generate_video_task env true prompt imageUrl idx).1.evs.head? = some (.submit 0) := by
  unfold generate_video_task
  simp only [Bool.not_true, Bool.false_eq_true, if_false]
  by_cases hne : imageUrl ≠ "" ∧ pyStrip imageUrl ≠ ""
  · rw [if_pos hne, if_pos hv]
    exact runAttempts_head env _ rfl
  · rw [if_neg hne]
    exact runAttempts_head env _ rfl

/-- peeling one poll round when the round returns from the function -/
theorem pollRounds_early {env : Env} {a r : Nat} {running : Bool} {w w' : W}
    (fuel : Nat) (h : pollStep env a running r w = .inr w') :
    pollRounds env a running (fuel + 1) r w = (w', true) := by
  unfold pollRounds
  rw [h]

/-! ### Rate limiter: an uncontended call does space, the race does not -/

theorem grant_lower_bound (lastCall now eps : ℚ) (heps : 0 ≤ eps) :
    lastCall + 1 ≤ rate_limit_api_call lastCall now eps := by
  unfold rate_limit_api_call
  by_cases hc : now - lastCall < 1
  · rw [if_pos hc]
    linarith
  · rw [if_neg hc]
    have := not_lt.1 hc
    linarith

theorem rlRace_grants : rlRace.grants = [10003 / 100, 10005 / 100] := by
  norm_num [rlRace, raceRun, raceStep, writeVal, tick, List.foldl]

/-! ### The claims -/

set_option maxRecDepth 1000000

set_option maxHeartbeats 4000000

/-- full trace of the all-API-error run, established once -/
theorem apiErrRun_eq (prompt m0 m1 m2 m3 m4 : String) :
    generate_video_task (apiErrEnv m0 m1 m2 m3 m4) true prompt "" 0 =
      (⟨apiErrRec prompt "failed" 4 ("API错误: " ++ m4) 15 (some 16), 17,
        [.submit 0, .wait 1, .submit 1, .wait 2, .submit 2, .wait 4, .submit 3,
         .wait 8, .submit 4],
        [{ apiErrRec prompt "pending" 0 "" 0 none with start_time := 0 },
         apiErrRec prompt "pending" 0 "" 1 none,
         apiErrRec prompt "generating" 0 "" 2 none,
         apiErrRec prompt "failed" 0 ("API错误: " ++ m0) 3 none,
         apiErrRec prompt "pending" 0 "" 4 none,
         apiErrRec prompt "generating" 1 "" 5 none,
         apiErrRec prompt "failed" 1 ("API错误: " ++ m1) 6 none,
         apiErrRec prompt "pending" 1 "" 7 none,
         apiErrRec prompt "generating" 2 "" 8 none,
         apiErrRec prompt "failed" 2 ("API错误: " ++ m2) 9 none,
         apiErrRec prompt "pending" 2 "" 10 none,
         apiErrRec prompt "generating" 3 "" 11 none,
         apiErrRec prompt "failed" 3 ("API错误: " ++ m3) 12 none,
         apiErrRec prompt "pending" 3 "" 13 none,
         apiErrRec prompt "generating" 4 "" 14 none,
         apiErrRec prompt "failed" 4 ("API错误: " ++ m4) 15 none,
         apiErrRec prompt "failed" 4 ("API错误: " ++ m4) 15 (some 16)]⟩, false) := rfl

/-- event trace of the all-`running` poll run, established once -/
theorem runningEnv_evs :
    (generate_video_task (runningEnv "t" 7) true "p" "" 0).1.evs =
      (List.range max_retries).flatMap
        (fun a => Ev.submit a :: (List.range max_poll_attempts).map (Ev.poll a)) := by
  decide

/-- C1 (counterexample): after attempt 0 exhausts all 120 poll rounds the
record is marked `Failed` with the poll-timeout message and `end_time`
set (history entry 123), yet a further submit call for the same job is
issued afterwards — the job is retried, contradicting "no subsequent
submit or poll call is issued for that job after the poll budget is
exhausted". -/
theorem C1_counterexample :
    (generate_video_task (runningEnv "t" 7) true "p" "" 0).1.evs.take 121 =
      Ev.submit 0 :: (List.range max_poll_attempts).map (Ev.poll 0) ∧
    (generate_video_task (runningEnv "t" 7) true "p" "" 0).1.evs[121]? =
      some (.submit 1) ∧
    (generate_video_task (runningEnv "t" 7) true "p" "" 0).1.task.status = "failed" ∧
    (generate_video_task (runningEnv "t" 7) true "p" "" 0).1.task.error =
      "轮询超时，请手动检查任务状态" := by
  rw [runningEnv_evs]
  exact ⟨by decide, by decide, rfl, rfl⟩

/-- C1 (amended): when every poll round of every attempt reports a
non-terminal `running`, each attempt's poll loop runs its 120 rounds and
then marks the job `Failed` with the poll-timeout message and `end_time`
set; the outer loop treats this like any failed attempt and retries (a
fresh submit plus 120 more polls per remaining attempt), so the run
performs exactly `max_retries` submits of 120 polls each and only after
the final attempt's poll budget is exhausted does the job stop, ending
`Failed` with the timeout message. -/
theorem C1_amended (prompt tid : String) (p : Int) :
    (generate_video_task (runningEnv tid p) true prompt "" 0).1.task =
      { id := 0, prompt := prompt, status := "failed", progress := p, retry_count := 4,
        error := "轮询超时，请手动检查任务状态", video_url := "", download_path := none,
        start_time := 1, last_update := 610, end_time := some 611 } ∧
    (generate_video_task (runningEnv tid p) true prompt "" 0).2 = false ∧
    (generate_video_task (runningEnv "t" 7) true "p" "" 0).1.evs =
      (List.range max_retries).flatMap
        (fun a => Ev.submit a :: (List.range max_poll_attempts).map (Ev.poll a)) :=
  ⟨rfl, rfl, runningEnv_evs⟩

/-- C2 (code bug, evaluated at the failing input): with submits accepted
and every attempt's first poll reporting a remote `failed` (retry budget
still available), the run exhibits 4 observable states whose status is
the non-terminal `generating` while `end_time` is already non-null, and
`end_time` is written 5 distinct values over the run — contradicting
"end_time non-null iff terminal, written at most once". -/
theorem C2_bug_eval :
    ((generate_video_task remoteFailEnv true "p" "" 0).1.hist.filter
      (fun t => t.status == "generating" && t.end_time.isSome)).length = 4 ∧
    ((generate_video_task remoteFailEnv true "p" "" 0).1.hist.filterMap
      Task.end_time).eraseDups.length = 5 := by
  exact ⟨by decide, by decide⟩

/-- C3 (counterexample): a download that delivers 200 bytes against a
declared content length of 100 (`M ≠ L`, `L > 0`) is accepted — the file
is kept and the job ends `Completed` — because the code only checks
`downloaded_size < total_size` (`main.py:273`). -/
theorem C3_counterexample :
    (download_video "http://a.bc/v" (.okBytes 100 200) "download/v.mp4").ok = true ∧
    (download_video "http://a.bc/v" (.okBytes 100 200) "download/v.mp4").fileDeleted = false ∧
    (generate_video_task overLongEnv true "p" "" 0).1.task.status = "completed" ∧
    (generate_video_task overLongEnv true "p" "" 0).2 = true := by
  exact ⟨by decide, by decide, by decide, by decide⟩

/-- C3 (amended): for every download whose response declares `L > 0` and
delivers `M < L` bytes (truncation — the only mismatch the code
detects), the partial file is deleted and the job is marked
`DownloadFailed` with the descriptive size-mismatch error and `end_time`
set. -/
theorem C3_amended (env : Env) (a : Nat) (w : W) (progress : Int) (l m : Nat)
    (u : String) (henvp : env.poll a 0 = .ok progress "succeeded" [u] "" "")
    (henvd : env.dl a = .okBytes l m) (hv : validate_url u = true) (hu : u ≠ "")
    (hl : 0 < l) (hm : m < l) :
    (poll_for_result env a true w).task =
      { w.task with progress := progress, status := "download_failed",
                    error := "文件下载不完整: " ++ toString m ++ "/" ++ toString l ++ " bytes",
                    last_update := w.now, end_time := some (w.now + 1) } ∧
    ∀ path, download_video u (.okBytes l m) path =
      ⟨false, "文件下载不完整: " ++ toString m ++ "/" ++ toString l ++ " bytes", true⟩ := by
  have hdl : ∀ path, download_video u (.okBytes l m) path =
      ⟨false, "文件下载不完整: " ++ toString m ++ "/" ++ toString l ++ " bytes", true⟩ := by
    intro path
    unfold download_video
    rw [hv]
    simp only [Bool.not_true, Bool.false_eq_true, if_false]
    rw [if_pos ⟨hl, hm⟩]
  have hstep : pollStep env a true 0 w =
      .inr ((((w.emit (.poll a 0)).upd (pollOkUpd progress "succeeded")).emit
          (.download u)).upd (downloadFailedUpd
            ("文件下载不完整: " ++ toString m ++ "/" ++ toString l ++ " bytes"))) := by
    unfold pollStep
    simp only [Bool.not_true, Bool.false_eq_true, if_false]
    rw [henvp]
    dsimp only
    rw [if_pos rfl, if_pos ⟨by simp, by simpa using hu⟩]
    simp only [List.headD_cons]
    rw [henvd, hdl]
    dsimp only
    rfl
  have h120 : pollRounds env a true max_poll_attempts 0 w =
      ((((w.emit (.poll a 0)).upd (pollOkUpd progress "succeeded")).emit
          (.download u)).upd (downloadFailedUpd
            ("文件下载不完整: " ++ toString m ++ "/" ++ toString l ++ " bytes")), true) :=
    pollRounds_early 119 hstep
  constructor
  · unfold poll_for_result
    rw [h120]
    dsimp only
    rfl
  · exact hdl

/-- C3 (witness): the amended theorem at scenario C's concrete numbers —
content length 1000, 500 bytes delivered. -/
theorem C3_witness :
    (poll_for_result truncatedEnv 0 true (W0 0 "p")).task =
      { (W0 0 "p").task with
          progress := 100, status := "download_failed",
          error := "文件下载不完整: " ++ toString 500 ++ "/" ++ toString 1000 ++ " bytes",
          last_update := (W0 0 "p").now, end_time := some ((W0 0 "p").now + 1) } ∧
    download_video "http://a.bc/v" (.okBytes 1000 500) "x" =
      ⟨false, "文件下载不完整: " ++ toString 500 ++ "/" ++ toString 1000 ++ " bytes", true⟩ := by
  have h := C3_amended truncatedEnv 0 (W0 0 "p") 100 1000 500 "http://a.bc/v"
    rfl rfl (by decide) (by decide) (by decide) (by decide)
  exact ⟨h.1, h.2 "x"⟩

/-- C4 (counterexample): when every submit returns a non-zero application
status code the runner does make exactly `max_retries` submit calls, but
the backoff waits between them are 1, 2, 4 and 8 seconds only — the
16-second wait asserted by the claim never occurs (the final attempt is
followed by no wait, `main.py:646`). -/
theorem C4_counterexample :
    ((generate_video_task (apiErrEnv "e0" "e1" "e2" "e3" "e4") true "p" "" 0).1.evs.filter
      (fun e => match e with | .wait _ => true | _ => false)) =
        [.wait 1, .wait 2, .wait 4, .wait 8] ∧
    ((generate_video_task (apiErrEnv "e0" "e1" "e2" "e3" "e4") true "p" "" 0).1.evs.filter
      (fun e => match e with | .submit _ => true | _ => false)).length = max_retries := by
  rw [apiErrRun_eq]
  exact ⟨by decide, by decide⟩

/-- C4 (amended): for a job whose five submit calls all return non-zero
application status codes (messages `m0..m4`), the runner makes exactly
`max_retries` = 5 attempts separated by exponential backoff waits of 1,
2, 4, 8 seconds (four waits — no wait follows the final attempt), each
wait resetting the record to `pending` with `error` cleared and
`retry_count` kept (history entries 4, 7, 10, 13), and the job ends
`failed` with the last API error message and `end_time` set. -/
theorem C4_amended (prompt m0 m1 m2 m3 m4 : String) :
    (generate_video_task (apiErrEnv m0 m1 m2 m3 m4) true prompt "" 0).1.evs =
      [.submit 0, .wait 1, .submit 1, .wait 2, .submit 2, .wait 4, .submit 3,
       .wait 8, .submit 4] ∧
    (generate_video_task (apiErrEnv m0 m1 m2 m3 m4) true prompt "" 0).2 = false ∧
    (generate_video_task (apiErrEnv m0 m1 m2 m3 m4) true prompt "" 0).1.task =
      { id := 0, prompt := prompt, status := "failed", progress := 0, retry_count := 4,
        error := "API错误: " ++ m4, video_url := "", download_path := none,
        start_time := 1, last_update := 15, end_time := some 16 } ∧
    (generate_video_task (apiErrEnv m0 m1 m2 m3 m4) true prompt "" 0).1.hist[4]? =
      some { id := 0, prompt := prompt, status := "pending", progress := 0,
             retry_count := 0, error := "", video_url := "", download_path := none,
             start_time := 1, last_update := 4, end_time := none } ∧
    (generate_video_task (apiErrEnv m0 m1 m2 m3 m4) true prompt "" 0).1.hist[7]? =
      some { id := 0, prompt := prompt, status := "pending", progress := 0,
             retry_count := 1, error := "", video_url := "", download_path := none,
             start_time := 1, last_update := 7, end_time := none } ∧
    (generate_video_task (apiErrEnv m0 m1 m2 m3 m4) true prompt "" 0).1.hist[10]? =
      some { id := 0, prompt := prompt, status := "pending", progress := 0,
             retry_count := 2, error := "", video_url := "", download_path := none,
             start_time := 1, last_update := 10, end_time := none } ∧
    (generate_video_task (apiErrEnv m0 m1 m2 m3 m4) true prompt "" 0).1.hist[13]? =
      some { id := 0, prompt := prompt, status := "pending", progress := 0,
             retry_count := 3, error := "", video_url := "", download_path := none,
             start_time := 1, last_update := 13, end_time := none } := by
  rw [apiErrRun_eq]
  exact ⟨rfl, rfl, rfl, rfl, rfl, rfl, rfl⟩

/-- C5 (counterexample): when a poll round reports remote status
`succeeded` with no result URLs, the raw string `succeeded` is stored
into the record's status (`main.py:358`) — an observable status outside
the five-value enum {pending, generating, completed, failed,
download_failed}. -/
theorem C5_counterexample :
    ((generate_video_task succNoResEnv true "p" "" 0).1.hist.any
      (fun t => t.status == "succeeded")) = true := by
  decide

/-- C5 (amended): provided the remote poll statuses range over the
contract alphabet {running, succeeded, failed}, every observable record
status lies in the five enum values plus the leaked raw `succeeded`, and
consecutive statuses follow the code's actual edges: the claimed
Pending→Generating→{Completed,Failed,DownloadFailed} edges, plus
Pending→Failed (URL-validation failure), Generating↔Succeeded,
Succeeded→{Completed,Failed,DownloadFailed}, Failed→Pending (backoff),
and the direct Failed/DownloadFailed→Generating re-entry used when a
poll-phase failure is retried without the backoff reset. -/
theorem C5_amended (env : Env) (running : Bool) (prompt iu : String) (idx : Nat)
    (halpha : pollAlphabet env) :
    (∀ t ∈ (generate_video_task env running prompt iu idx).1.hist,
      allowedStatus t.status) ∧
    List.Chain' (fun x y => allowedEdge x.status y.status)
      (generate_video_task env running prompt iu idx).1.hist := by
  have h := histInv_generate halpha running prompt iu idx
  exact ⟨h.2.2.2, h.2.2.1⟩

/-- C5 (witness): the amended theorem at a concrete oracle whose poll
replies are never HTTP 200 (the alphabet hypothesis holds vacuously). -/
theorem C5_witness :
    (∀ t ∈ (generate_video_task quietEnv true "p" "" 0).1.hist,
      allowedStatus t.status) ∧
    List.Chain' (fun x y => allowedEdge x.status y.status)
      (generate_video_task quietEnv true "p" "" 0).1.hist :=
  C5_amended quietEnv true "p" "" 0
    (fun _ _ _ _ _ _ _ h => nomatch h)

/-- C6 (counterexample): after attempt 0 polls progress 50 and then 60
and fails, attempt 1 starts (status `generating`, `retry_count` 1) with
progress still 60 — the record's progress is not reset to 0 at the start
of the new attempt. -/
theorem C6_counterexample :
    ((generate_video_task progressEnv true "p" "" 0).1.hist.any
      (fun t => t.retry_count == 1 && t.status == "generating" && t.progress != 0))
      = true := by
  decide

/-- C6 (amended): starting a new attempt (`startAttemptUpd`) and the
backoff reset (`backoffResetUpd`) leave `progress` unchanged — it is not
reset to 0 on retry; a poll write stores exactly the remotely reported
value; progress is 0 only from initialisation, so every observable
progress value is 0 or a value reported by some poll response (the
orchestrator never enforces monotonicity). -/
theorem C6_amended (env : Env) (running : Bool) (prompt iu : String) (idx : Nat)
    (P : Int → Prop)
    (hP : ∀ a r progress st results fr em,
      env.poll a r = .ok progress st results fr em → P progress) :
    (∀ a now t, (startAttemptUpd a now t).progress = t.progress) ∧
    (∀ now t, (backoffResetUpd now t).progress = t.progress) ∧
    (∀ progress st now t, (pollOkUpd progress st now t).progress = progress) ∧
    (∀ now t, (reinitUpd now t).progress = 0) ∧
    (∀ t ∈ (generate_video_task env running prompt iu idx).1.hist,
      t.progress = 0 ∨ P t.progress) := by
  refine ⟨fun _ _ _ => rfl, fun _ _ => rfl, fun _ _ _ _ => rfl, fun _ _ => rfl, ?_⟩
  have hp : Pres env (fun t => t.progress = 0 ∨ P t.progress) :=
    { reinit := fun _ _ _ => Or.inl rfl
      start := fun _ _ _ _ h => h
      pollOk := fun a r prog st res fr em _ _ he _ =>
        Or.inr (hP a r prog st res fr em he)
      completed := fun _ _ _ _ h => h
      dlFailed := fun _ _ _ h => h
      remoteFailed := fun _ _ _ _ h => h
      pollApiErr := fun _ _ _ h => h
      pollErr := fun _ _ _ h => h
      pollTimeout := fun _ _ h => h
      submitFail := fun _ _ _ h => h
      backoffReset := fun _ _ h => h
      validationFail := fun _ _ h => h
      setEnd := fun _ _ h => h }
  exact (QInv_generate hp running prompt iu idx (Or.inl rfl)).1

/-- C6 (witness): the amended theorem against the oracle whose polls all
report progress 10, checked at the initial record. -/
theorem C6_witness :
    initTask 0 "p" 0 ∈ (generate_video_task remoteFailEnv true "p" "" 0).1.hist ∧
    ((initTask 0 "p" 0).progress = 0 ∨ (initTask 0 "p" 0).progress = 10) := by
  refine ⟨by decide, ?_⟩
  exact (C6_amended remoteFailEnv true "p" "" 0 (fun p => p = 10)
    (fun a r prog st res fr em h => by cases h; rfl)).2.2.2.2 _ (by decide)

/-- C7: a job supplied with a non-blank reference-image URL that fails
validation immediately ends `failed` with the validation error message
and `end_time` set, no network call (submit, poll or download) is ever
issued, and the function returns without retrying. -/
theorem C7_invalid_url (env : Env) (prompt iu : String) (idx : Nat)
    (h1 : pyStrip iu ≠ "") (h2 : validate_url (pyStrip iu) = false) :
    (generate_video_task env true prompt iu idx).1.task.status = "failed" ∧
    (generate_video_task env true prompt iu idx).1.task.error = "图片URL格式无效" ∧
    (generate_video_task env true prompt iu idx).1.task.end_time.isSome = true ∧
    (generate_video_task env true prompt iu idx).1.evs = [] ∧
    (generate_video_task env true prompt iu idx).2 = false := by
  have h0 : iu ≠ "" := by
    intro h
    rw [h] at h1
    exact h1 (by decide)
  unfold generate_video_task
  simp only [Bool.not_true, Bool.false_eq_true, if_false]
  rw [if_pos ⟨h0, h1⟩, if_neg (by rw [h2]; exact Bool.false_ne_true)]
  exact ⟨rfl, rfl, rfl, rfl, rfl⟩

/-- C7 (witness): the theorem at the malformed URL `htp://x`. -/
theorem C7_witness :
    (pyStrip "htp://x" ≠ "" ∧ validate_url (pyStrip "htp://x") = false) ∧
    (generate_video_task quietEnv true "p" "htp://x" 0).1.task.status = "failed" ∧
    (generate_video_task quietEnv true "p" "htp://x" 0).1.evs = [] := by
  refine ⟨⟨by decide, by decide⟩, ?_, ?_⟩
  · exact (C7_invalid_url quietEnv "p" "htp://x" 0 (by decide) (by decide)).1
  · exact (C7_invalid_url quietEnv "p" "htp://x" 0 (by decide) (by decide)).2.2.2.1

/-- C8: the 1-second spacing of recorded grant times fails under the
concurrency the program actually runs — `rate_limit_api_call`
(`main.py:302-310`) never acquires `self.lock`, so when two worker
threads both execute the read at `main.py:304-305` (here at clocks 100
and 100 + 1/100, each seeing the stale timestamp 0) before either
executes the write at `main.py:310`, both skip the sleep and record
grants 2/100 seconds apart: the grants in `rlRace` are 10003/100 and
10005/100, and they violate the 1-second spacing. -/
theorem C8_race :
    rlRace.grants = [10003 / 100, 10005 / 100] ∧
    ¬ List.Chain' (fun g g' => g + 1 ≤ g') rlRace.grants := by
  refine ⟨rlRace_grants, ?_⟩
  rw [rlRace_grants]
  intro h
  have hc := (List.chain'_cons.mp h).1
  norm_num at hc

/-- C9: in every run, against any oracle, the record's `retry_count`
satisfies `retry_count < max_retries` in the final state and in every
observable intermediate state (it is only ever written to 0 or to the
attempt index, which ranges over `0..max_retries-1`). -/
theorem C9_retry_count_lt (env : Env) (running : Bool) (prompt iu : String) (idx : Nat) :
    (∀ t ∈ (generate_video_task env running prompt iu idx).1.hist,
      t.retry_count < max_retries) ∧
    (generate_video_task env running prompt iu idx).1.task.retry_count < max_retries := by
  have hp : Pres env (fun t => t.retry_count < max_retries) :=
    { reinit := fun _ _ _ => by show 0 < max_retries; decide
      start := fun _ _ _ ha _ => ha
      pollOk := fun _ _ _ _ _ _ _ _ _ _ h => h
      completed := fun _ _ _ _ h => h
      dlFailed := fun _ _ _ h => h
      remoteFailed := fun _ _ _ _ h => h
      pollApiErr := fun _ _ _ h => h
      pollErr := fun _ _ _ h => h
      pollTimeout := fun _ _ h => h
      submitFail := fun _ _ _ h => h
      backoffReset := fun _ _ h => h
      validationFail := fun _ _ h => h
      setEnd := fun _ _ h => h }
  have h := QInv_generate hp running prompt iu idx (by show 0 < max_retries; decide)
  exact ⟨h.1, h.2⟩

/-- C9 (witness): the bound checked at the initial record of a concrete
run. -/
theorem C9_witness :
    initTask 0 "p" 0 ∈ (generate_video_task quietEnv true "p" "" 0).1.hist ∧
    (initTask 0 "p" 0).retry_count < max_retries :=
  ⟨by decide, (C9_retry_count_lt quietEnv true "p" "" 0).1 _ (by decide)⟩

/-- C10: the empty reference-image URL is accepted by validation (the
field is optional), the submit payload then carries no `url` field, and
the job proceeds straight to its first submit call with no validation
failure — whenever the (trimmed) URL passes validation the first
observable network call is the attempt-0 submit. -/
theorem C10_empty_url (env : Env) (prompt iu : String) (idx : Nat)
    (hv : validate_url (pyStrip iu) = true) :
    validate_url "" = true ∧
    payloadUrl "" = none ∧
    (generate_video_task env true prompt iu idx).1.evs.head? = some (.submit 0) :=
  ⟨rfl, rfl, generate_first_event env prompt iu idx hv⟩

/-- C10 (witness): the theorem at the empty URL. -/
theorem C10_witness :
    validate_url "" = true ∧
    payloadUrl "" = none ∧
    (generate_video_task quietEnv true "p" "" 0).1.evs.head? = some (.submit 0) :=
  C10_empty_url quietEnv "p" "" 0 (by decide)

end Sora
